import Mathlib

/-!
Shallow embedding of the `Window` class of src/Code/Window.h
(OpenGL-Level-Editor).

The repository provides only the header: the bodies of `getBufferWidth`,
`getBufferHeight`, `getShouldClose`, `getKeys` and `SwapBuffers` are inline
in the header and are embedded from that source; the bodies of the
constructors, destructor, `Initialise`, `getXChange`, `getYChange`,
`handleKeys` and `handleMouse` are declared in the header but implemented
in a file not under src/, so those operations are modelled from the spec
(each such definition carries a doc comment starting with
`Modelled from the spec:`).

GLint is a 32-bit machine integer; the code performs no arithmetic on the
stored dimensions (they are only stored and converted), so overflow never
arises and GLint is embedded as `Int` (magnitudes below 2 ^ 32).
GLfloat is IEEE-754 single precision; the only place its rounding is
observable in the embedded claims is the implicit GLint-to-GLfloat
conversion in `getBufferWidth`/`getBufferHeight`, which is embedded
exactly below (`float32OfInt`, round to nearest, ties to even, 24-bit
significand; exact on every integer of magnitude at most 2 ^ 24, hence on
every GLint magnitude below 2 ^ 25).  The mouse-delta fields are embedded
as exact rationals: the claims about them (read-and-clear, first-move
baseline) are rounding-independent.
-/

/-- Number of low-order bits that single-precision conversion must drop
from a natural number so that the remaining significand fits in 24 bits.
GLint magnitudes are below 2 ^ 32, so the chain up to 2 ^ 32 covers every
value the program can store. -/
def sigExp (m : Nat) : Nat :=
  if m < 2 ^ 24 then 0
  else if m < 2 ^ 25 then 1
  else if m < 2 ^ 26 then 2
  else if m < 2 ^ 27 then 3
  else if m < 2 ^ 28 then 4
  else if m < 2 ^ 29 then 5
  else if m < 2 ^ 30 then 6
  else if m < 2 ^ 31 then 7
  else 8

/-- Value of the IEEE-754 single-precision float nearest to `m`
(round to nearest, ties to even); for integer inputs the result is again
an integer, which is the value returned. -/
def float32OfNat (m : Nat) : Nat :=
  let e := sigExp m
  let q := m / 2 ^ e
  let r := m % 2 ^ e
  if 2 * r > 2 ^ e ∨ (2 * r = 2 ^ e ∧ q % 2 = 1) then (q + 1) * 2 ^ e
  else q * 2 ^ e

/-- C++ GLint-to-GLfloat conversion: round to the nearest representable
single-precision value (sign-symmetric). -/
def float32OfInt (n : Int) : Int :=
  if n < 0 then -(float32OfNat n.natAbs : Int) else (float32OfNat n.natAbs : Int)

/-- State of the native GLFW window object behind the opaque
`GLFWwindow*` handle: its close-request flag and the framebuffer size the
windowing system reports for it. -/
structure NativeWindow where
  shouldClose : Bool
  fbWidth : Int
  fbHeight : Int
deriving DecidableEq

/-- Behaviour of the host windowing system during `Initialise`: whether
native window/context creation succeeds, and the framebuffer size the
system reports for the created window (which may differ from the
requested width/height). -/
structure GLFWEnv where
  createSucceeds : Bool
  fbWidth : Int
  fbHeight : Int
deriving DecidableEq

/-- The `Window` class of src/Code/Window.h lines 26-42: private fields
`mainWindow`, `width`/`height`, `bufferWidth`/`bufferHeight`,
`keys[1024]` (a C array of fixed capacity 1024, embedded as a list of
that length), `lastX`/`lastY`, `xChange`/`yChange`, `mouseFirstMoved`. -/
structure Window where
  mainWindow : Option NativeWindow
  width : Int
  height : Int
  bufferWidth : Int
  bufferHeight : Int
  keys : List Bool
  lastX : Rat
  lastY : Rat
  xChange : Rat
  yChange : Rat
  mouseFirstMoved : Bool
deriving DecidableEq

/-- glfwWindowShouldClose: reads the close-request flag of the native
window (a null handle carries no pending request). -/
def glfwWindowShouldClose (h : Option NativeWindow) : Bool :=
  match h with
  | some nw => nw.shouldClose
  | none => false

/-- GLFW action code for a key press. -/
def GLFW_PRESS : Int := 1

/-- GLFW action code for a key release. -/
def GLFW_RELEASE : Int := 0

namespace Window

/-- Status code a successful `Initialise` returns. -/
def InitSuccess : Int := 0

/-- Modelled from the spec: the single error kind `InitFailure`,
the nonzero status code `Initialise` returns when native window/context
creation fails (the implementation file carrying the concrete value is
not under src/). -/
def InitFailure : Int := 1

/-- Modelled from the spec: the constructor bodies `Window()` and
`Window(GLint, GLint)` are not under src/.  Per the spec the constructor
stores the requested dimensions and does not touch the windowing system;
the key-state array starts cleared and the mouse state starts with zero
accumulated delta and the first-movement flag set, so that the first
cursor callback only records a baseline. -/
def construct (windowWidth windowHeight : Int) : Window :=
  { mainWindow := none
    width := windowWidth
    height := windowHeight
    bufferWidth := 0
    bufferHeight := 0
    keys := List.replicate 1024 false
    lastX := 0
    lastY := 0
    xChange := 0
    yChange := 0
    mouseFirstMoved := true }

/-- Modelled from the spec: the body of `Initialise` is not under src/.
Per the spec it creates the native window and context, installs the input
callbacks, queries and stores the actual framebuffer size, and returns a
status code, signalling `InitFailure` (and leaving no partially
constructed native handle) when window/context creation fails.  A freshly
created native window has no pending close request. -/
def Initialise (env : GLFWEnv) (w : Window) : Int × Window :=
  if env.createSucceeds then
    (InitSuccess,
      { w with
          mainWindow := some { shouldClose := false
                               fbWidth := env.fbWidth
                               fbHeight := env.fbHeight }
          bufferWidth := env.fbWidth
          bufferHeight := env.fbHeight })
  else
    (InitFailure, { w with mainWindow := none })

/-- Header line 16: `GLfloat getBufferWidth() { return bufferWidth; }` —
returns the stored GLint converted to GLfloat; mutates nothing. -/
def getBufferWidth (w : Window) : Rat × Window :=
  ((float32OfInt w.bufferWidth : Rat), w)

/-- Header line 17: `GLfloat getBufferHeight() { return bufferHeight; }` —
returns the stored GLint converted to GLfloat; mutates nothing. -/
def getBufferHeight (w : Window) : Rat × Window :=
  ((float32OfInt w.bufferHeight : Rat), w)

/-- Modelled from the spec: the body of `getXChange` is not under src/.
Per the spec it returns the accumulated pointer-movement delta since the
previous call and resets the internal accumulator to zero. -/
def getXChange (w : Window) : Rat × Window :=
  (w.xChange, { w with xChange := 0 })

/-- Modelled from the spec: the body of `getYChange` is not under src/.
Per the spec it returns the accumulated pointer-movement delta since the
previous call and resets the internal accumulator to zero. -/
def getYChange (w : Window) : Rat × Window :=
  (w.yChange, { w with yChange := 0 })

/-- Header line 21:
`bool getShouldClose() { return glfwWindowShouldClose(mainWindow); }` —
forwards the stored handle to the windowing library; mutates nothing. -/
def getShouldClose (w : Window) : Bool × Window :=
  (glfwWindowShouldClose w.mainWindow, w)

/-- Header line 22: `bool* getKeys() { return keys; }` — exposes the
key-state array; mutates nothing. -/
def getKeys (w : Window) : List Bool × Window :=
  (w.keys, w)

/-- Header line 24: `void SwapBuffers() { glfwSwapBuffers(mainWindow); }`
— forwards the stored handle to the windowing library to present the
frame; no field of the Window object changes. -/
def SwapBuffers (w : Window) : Window :=
  w

/-- Modelled from the spec: the body of the static key callback
`handleKeys(window, key, code, action, mode)` is not under src/ (the
callback reaches the instance through the user pointer of the native
window; embedded as a direct state update).  Per the spec, on a key press
or release it sets or clears the corresponding slot of the key-state
array, bounds-checked against the capacity 1024; key codes outside that
range are silently dropped. -/
def handleKeys (w : Window) (key : Int) (code : Int) (action : Int)
    (mode : Int) : Window :=
  if 0 ≤ key ∧ key < 1024 then
    if action = GLFW_PRESS then { w with keys := w.keys.set key.toNat true }
    else if action = GLFW_RELEASE then
      { w with keys := w.keys.set key.toNat false }
    else w
  else w

/-- Modelled from the spec: the body of the static cursor callback
`handleMouse(window, xPos, yPos)` is not under src/.  Per the spec, on
its first invocation it records the position as the baseline without
producing a delta; on subsequent invocations it computes the delta from
the previously stored position, accumulates it, and updates the stored
last-position. -/
def handleMouse (w : Window) (xPos yPos : Rat) : Window :=
  if w.mouseFirstMoved then
    { w with lastX := xPos, lastY := yPos, mouseFirstMoved := false }
  else
    { w with
        xChange := w.xChange + (xPos - w.lastX)
        yChange := w.yChange + (yPos - w.lastY)
        lastX := xPos
        lastY := yPos }

/-- Modelled from the spec: the destructor body is not under src/.  Per
the spec it releases the native window/context handle and is safe to call
even if `Initialise` was never invoked or failed: when no handle exists
there is nothing to release. -/
def destroy (w : Window) : Window :=
  { w with mainWindow := none }

/-- The windowing system signalling a close request for the window (for
example the user clicking the close button): the native close-request
flag of the window, if any, becomes set. -/
def signalClose (w : Window) : Window :=
  { w with
      mainWindow := w.mainWindow.map (fun nw => { nw with shouldClose := true }) }

end Window

/-! Helper lemmas about the single-precision conversion. -/

theorem sigExp_eq_zero (m : Nat) (h : m < 2 ^ 24) : sigExp m = 0 := by
  unfold sigExp
  rw [if_pos h]

theorem float32OfNat_eq_of_le (m : Nat) (h : m ≤ 2 ^ 24) : float32OfNat m = m := by
  rcases Nat.lt_or_ge m (2 ^ 24) with h' | h'
  · unfold float32OfNat
    rw [sigExp_eq_zero m h']
    norm_num [Nat.mod_one]
  · have hm : m = 2 ^ 24 := Nat.le_antisymm h h'
    subst hm
    decide

theorem float32OfInt_eq_of_le (n : Int) (h : n.natAbs ≤ 2 ^ 24) :
    float32OfInt n = n := by
  unfold float32OfInt
  rw [float32OfNat_eq_of_le n.natAbs h]
  rcases Int.lt_or_le n 0 with h' | h'
  · rw [if_pos h']
    omega
  · rw [if_neg (Int.not_lt.mpr h')]
    omega

/-! Claim theorems. -/

/-- Claim C1: getXChange (respectively getYChange) returns the accumulated
pointer-movement delta and resets the internal accumulator to zero, so a
second immediate call returns zero; calls that are not mouse-move callbacks
(the key callback, the other delta accessor) do not disturb the accumulator
in between. -/
theorem getXChange_read_and_clear :
    (∀ w : Window, (Window.getXChange w).1 = w.xChange ∧
      ((Window.getXChange w).2).xChange = 0 ∧
      (Window.getXChange (Window.getXChange w).2).1 = 0) ∧
    (∀ w : Window, (Window.getYChange w).1 = w.yChange ∧
      ((Window.getYChange w).2).yChange = 0 ∧
      (Window.getYChange (Window.getYChange w).2).1 = 0) ∧
    (∀ (w : Window) (k c a m : Int),
      (Window.handleKeys w k c a m).xChange = w.xChange ∧
      (Window.handleKeys w k c a m).yChange = w.yChange) ∧
    (∀ w : Window, ((Window.getYChange w).2).xChange = w.xChange) ∧
    (∀ w : Window, ((Window.getXChange w).2).yChange = w.yChange) := by
  refine ⟨fun w => ⟨rfl, rfl, rfl⟩, fun w => ⟨rfl, rfl, rfl⟩, ?_,
    fun w => rfl, fun w => rfl⟩
  intro w k c a m
  unfold Window.handleKeys
  split_ifs <;> exact ⟨rfl, rfl⟩

/-- Claim C2: invoking the key callback with a key code outside the valid
index range of the key-state array performs no write at all: the whole
window state, in particular the key-state array, is unchanged. -/
theorem handleKeys_out_of_range (w : Window) (key code action mode : Int)
    (h : key < 0 ∨ 1024 ≤ key) :
    Window.handleKeys w key code action mode = w ∧
    (Window.handleKeys w key code action mode).keys = w.keys := by
  have hn : ¬(0 ≤ key ∧ key < 1024) := by omega
  unfold Window.handleKeys
  rw [if_neg hn]
  exact ⟨rfl, rfl⟩

theorem handleKeys_out_of_range_check :
    ((1024 : Int) < 0 ∨ (1024 : Int) ≤ 1024) ∧
    Window.handleKeys (Window.construct 800 600) 1024 0 GLFW_PRESS 0 =
      Window.construct 800 600 :=
  ⟨Or.inr (by norm_num),
    (handleKeys_out_of_range (Window.construct 800 600) 1024 0 GLFW_PRESS 0
      (Or.inr (by norm_num))).1⟩

/-- Claim C3: for a key code within the valid index range, a press event
leaves the corresponding key-state flag true, and a press followed by a
release leaves it false. -/
theorem handleKeys_press_release (w : Window) (key code mode : Int)
    (h0 : 0 ≤ key) (h1 : key < 1024) (hlen : w.keys.length = 1024) :
    (Window.handleKeys w key code GLFW_PRESS mode).keys.getD key.toNat false
      = true ∧
    (Window.handleKeys (Window.handleKeys w key code GLFW_PRESS mode) key code
      GLFW_RELEASE mode).keys.getD key.toNat false = false := by
  have hk : 0 ≤ key ∧ key < 1024 := ⟨h0, h1⟩
  have hlt : key.toNat < w.keys.length := by omega
  simp only [Window.handleKeys, if_pos hk, GLFW_PRESS, GLFW_RELEASE]
  norm_num
  constructor
  · rw [List.getElem?_set_self hlt]
    rfl
  · rw [List.getElem?_set_self (by simpa using hlt)]
    rfl

set_option maxRecDepth 10000 in
theorem handleKeys_press_release_check :
    (0 ≤ (65 : Int) ∧ (65 : Int) < 1024 ∧
      (Window.construct 800 600).keys.length = 1024) ∧
    (Window.handleKeys (Window.construct 800 600) 65 0 GLFW_PRESS
      0).keys.getD (65 : Int).toNat false = true ∧
    (Window.handleKeys (Window.handleKeys (Window.construct 800 600) 65 0
      GLFW_PRESS 0) 65 0 GLFW_RELEASE 0).keys.getD (65 : Int).toNat false
      = false :=
  ⟨⟨by norm_num, by norm_num, by simp [Window.construct]⟩,
    handleKeys_press_release (Window.construct 800 600) 65 0 0
      (by norm_num) (by norm_num) (by simp [Window.construct])⟩

set_option maxRecDepth 4000 in
/-- Claim C4: immediately after a successful Initialise the mouse delta
accumulators read zero, and they still read zero after the cursor callback
fires exactly once (the first invocation only records the baseline); a
subsequent invocation accumulates the delta from the previously stored
position and updates the stored last-position. -/
theorem initialise_mouse_baseline (env : GLFWEnv) (ww wh : Int)
    (x y x2 y2 : Rat) (hs : env.createSucceeds = true) :
    (Window.getXChange (Window.Initialise env (Window.construct ww wh)).2).1
      = 0 ∧
    (Window.getYChange (Window.Initialise env (Window.construct ww wh)).2).1
      = 0 ∧
    (Window.getXChange (Window.handleMouse
      (Window.Initialise env (Window.construct ww wh)).2 x y)).1 = 0 ∧
    (Window.getYChange (Window.handleMouse
      (Window.Initialise env (Window.construct ww wh)).2 x y)).1 = 0 ∧
    (Window.handleMouse
      (Window.Initialise env (Window.construct ww wh)).2 x y).lastX = x ∧
    (Window.handleMouse
      (Window.Initialise env (Window.construct ww wh)).2 x y).lastY = y ∧
    (Window.handleMouse (Window.handleMouse
      (Window.Initialise env (Window.construct ww wh)).2 x y) x2 y2).xChange
      = x2 - x ∧
    (Window.handleMouse (Window.handleMouse
      (Window.Initialise env (Window.construct ww wh)).2 x y) x2 y2).yChange
      = y2 - y ∧
    (Window.handleMouse (Window.handleMouse
      (Window.Initialise env (Window.construct ww wh)).2 x y) x2 y2).lastX
      = x2 ∧
    (Window.handleMouse (Window.handleMouse
      (Window.Initialise env (Window.construct ww wh)).2 x y) x2 y2).lastY
      = y2 := by
  simp [Window.getXChange, Window.getYChange, Window.Initialise,
    Window.construct, Window.handleMouse, hs]

theorem initialise_mouse_baseline_check :
    (GLFWEnv.mk true 800 600).createSucceeds = true ∧
    (Window.getXChange (Window.handleMouse
      (Window.Initialise (GLFWEnv.mk true 800 600)
        (Window.construct 800 600)).2 10 20)).1 = 0 :=
  ⟨rfl, (initialise_mouse_baseline (GLFWEnv.mk true 800 600) 800 600
    10 20 11 23 rfl).2.2.1⟩

/-- Claim C5: when native window/context creation fails, Initialise returns
the InitFailure status code and leaves no native handle, and the destructor
is safe on every window state, also one on which Initialise was never
invoked: it simply ends with no native handle. -/
theorem initialise_failure_safe (env : GLFWEnv) (w : Window)
    (h : env.createSucceeds = false) :
    (Window.Initialise env w).1 = Window.InitFailure ∧
    ((Window.Initialise env w).2).mainWindow = none ∧
    (Window.destroy (Window.Initialise env w).2).mainWindow = none ∧
    (∀ v : Window, (Window.destroy v).mainWindow = none) := by
  simp [Window.Initialise, Window.destroy, h]

theorem initialise_failure_safe_check :
    (GLFWEnv.mk false 0 0).createSucceeds = false ∧
    (Window.Initialise (GLFWEnv.mk false 0 0) (Window.construct 800 600)).1
      = Window.InitFailure :=
  ⟨rfl, (initialise_failure_safe (GLFWEnv.mk false 0 0)
    (Window.construct 800 600) rfl).1⟩

set_option maxRecDepth 10000 in
/-- Claim C6 (counterexample): the accessors do not always return exactly
the framebuffer size the windowing system reported: the stored GLint is
returned through a GLint-to-GLfloat conversion, and at the reported width
16777217 = 2 ^ 24 + 1 the single-precision image differs from the reported
value. -/
theorem getBufferWidth_exactness_counterexample :
    (GLFWEnv.mk true 16777217 16777217).createSucceeds = true ∧
    (Window.getBufferWidth (Window.Initialise
      (GLFWEnv.mk true 16777217 16777217) (Window.construct 800 600)).2).1
      ≠ ((16777217 : Int) : Rat) := by
  refine ⟨rfl, ?_⟩
  have heq : (Window.getBufferWidth (Window.Initialise
      (GLFWEnv.mk true 16777217 16777217) (Window.construct 800 600)).2).1
      = ((float32OfInt 16777217 : Int) : Rat) := rfl
  rw [heq]
  have h1 : float32OfInt 16777217 ≠ 16777217 := by decide
  exact fun hc => h1 (Int.cast_injective hc)

/-- Claim C6 (amended): after a successful Initialise, getBufferWidth and
getBufferHeight return the GLfloat (single-precision) image of the
framebuffer size the windowing system reported, which equals that size
exactly whenever its magnitude is at most 2 ^ 24 (in particular for every
realistic framebuffer size); the accessors have no failure mode and do not
modify any state. -/
theorem getBuffer_after_initialise (env : GLFWEnv) (w : Window)
    (hs : env.createSucceeds = true) :
    (Window.getBufferWidth (Window.Initialise env w).2).1
      = ((float32OfInt env.fbWidth : Int) : Rat) ∧
    (Window.getBufferHeight (Window.Initialise env w).2).1
      = ((float32OfInt env.fbHeight : Int) : Rat) ∧
    (Window.getBufferWidth (Window.Initialise env w).2).2
      = (Window.Initialise env w).2 ∧
    (Window.getBufferHeight (Window.Initialise env w).2).2
      = (Window.Initialise env w).2 ∧
    (env.fbWidth.natAbs ≤ 2 ^ 24 →
      (Window.getBufferWidth (Window.Initialise env w).2).1
        = (env.fbWidth : Rat)) ∧
    (env.fbHeight.natAbs ≤ 2 ^ 24 →
      (Window.getBufferHeight (Window.Initialise env w).2).1
        = (env.fbHeight : Rat)) := by
  have hbw : ((Window.Initialise env w).2).bufferWidth = env.fbWidth := by
    simp [Window.Initialise, hs]
  have hbh : ((Window.Initialise env w).2).bufferHeight = env.fbHeight := by
    simp [Window.Initialise, hs]
  refine ⟨?_, ?_, rfl, rfl, ?_, ?_⟩
  · simp [Window.getBufferWidth, hbw]
  · simp [Window.getBufferHeight, hbh]
  · intro h
    simp [Window.getBufferWidth, hbw, float32OfInt_eq_of_le env.fbWidth h]
  · intro h
    simp [Window.getBufferHeight, hbh, float32OfInt_eq_of_le env.fbHeight h]

theorem getBuffer_after_initialise_check :
    ((GLFWEnv.mk true 1024 768).createSucceeds = true ∧
      ((1024 : Int).natAbs ≤ 2 ^ 24)) ∧
    (Window.getBufferWidth (Window.Initialise (GLFWEnv.mk true 1024 768)
      (Window.construct 800 600)).2).1 = ((1024 : Int) : Rat) :=
  ⟨⟨rfl, by norm_num⟩,
    (getBuffer_after_initialise (GLFWEnv.mk true 1024 768)
      (Window.construct 800 600) rfl).2.2.2.2.1 (by norm_num)⟩

/-- Claim C7: getShouldClose returns false immediately after a successful
Initialise, returns true once the windowing system has signalled a close
request, and in every state it simply reports the pending close-request
flag of the native layer without modifying the window. -/
theorem getShouldClose_lifecycle (env : GLFWEnv) (w : Window)
    (hs : env.createSucceeds = true) :
    (Window.getShouldClose (Window.Initialise env w).2).1 = false ∧
    (Window.getShouldClose
      (Window.signalClose (Window.Initialise env w).2)).1 = true ∧
    (∀ v : Window,
      (Window.getShouldClose v).1 = glfwWindowShouldClose v.mainWindow ∧
      (Window.getShouldClose v).2 = v) := by
  refine ⟨?_, ?_, fun v => ⟨rfl, rfl⟩⟩ <;>
    simp [Window.getShouldClose, Window.signalClose, Window.Initialise, hs,
      glfwWindowShouldClose]

theorem getShouldClose_lifecycle_check :
    (GLFWEnv.mk true 800 600).createSucceeds = true ∧
    (Window.getShouldClose (Window.Initialise (GLFWEnv.mk true 800 600)
      (Window.construct 800 600)).2).1 = false ∧
    (Window.getShouldClose (Window.signalClose
      (Window.Initialise (GLFWEnv.mk true 800 600)
        (Window.construct 800 600)).2)).1 = true :=
  ⟨rfl,
    (getShouldClose_lifecycle (GLFWEnv.mk true 800 600)
      (Window.construct 800 600) rfl).1,
    (getShouldClose_lifecycle (GLFWEnv.mk true 800 600)
      (Window.construct 800 600) rfl).2.1⟩

set_option maxRecDepth 10000 in
/-- Claim C8: the key-state array has capacity exactly 1024 (so valid key
codes are 0 through 1023), and every operation of the class preserves that
capacity, so it is fixed for the whole lifetime of every Window. -/
theorem keys_capacity_1024 :
    (∀ ww wh : Int, (Window.construct ww wh).keys.length = 1024) ∧
    (∀ (w : Window) (k c a m : Int),
      (Window.handleKeys w k c a m).keys.length = w.keys.length) ∧
    (∀ (env : GLFWEnv) (w : Window),
      ((Window.Initialise env w).2).keys.length = w.keys.length) ∧
    (∀ (w : Window) (x y : Rat),
      (Window.handleMouse w x y).keys.length = w.keys.length) ∧
    (∀ w : Window, ((Window.getXChange w).2).keys.length = w.keys.length) ∧
    (∀ w : Window, ((Window.getYChange w).2).keys.length = w.keys.length) ∧
    (∀ w : Window, (Window.destroy w).keys.length = w.keys.length) ∧
    (∀ w : Window, (Window.signalClose w).keys.length = w.keys.length) ∧
    (∀ w : Window, (Window.SwapBuffers w).keys.length = w.keys.length) ∧
    (∀ w : Window, ((Window.getShouldClose w).2).keys.length
      = w.keys.length) ∧
    (∀ w : Window, ((Window.getBufferWidth w).2).keys.length
      = w.keys.length) ∧
    (∀ w : Window, ((Window.getBufferHeight w).2).keys.length
      = w.keys.length) ∧
    (∀ w : Window, ((Window.getKeys w).2).keys.length = w.keys.length) := by
  refine ⟨?_, ?_, ?_, ?_, fun w => rfl, fun w => rfl, fun w => rfl,
    fun w => rfl, fun w => rfl, fun w => rfl, fun w => rfl, fun w => rfl,
    fun w => rfl⟩
  · intro ww wh
    simp [Window.construct]
  · intro w k c a m
    unfold Window.handleKeys
    split_ifs <;> simp
  · intro env w
    unfold Window.Initialise
    split <;> rfl
  · intro w x y
    unfold Window.handleMouse
    split <;> rfl

/-- Claim C9: the framebuffer dimensions are stored as integers but
returned by getBufferWidth/getBufferHeight as GLfloat values: each
returned dimension is exactly the integer-to-float conversion of the
stored integer, and that conversion loses nothing when the stored
magnitude is at most 2 ^ 24. -/
theorem getBuffer_int_to_float (w : Window) :
    (Window.getBufferWidth w).1 = ((float32OfInt w.bufferWidth : Int) : Rat) ∧
    (Window.getBufferHeight w).1
      = ((float32OfInt w.bufferHeight : Int) : Rat) ∧
    (w.bufferWidth.natAbs ≤ 2 ^ 24 →
      (Window.getBufferWidth w).1 = (w.bufferWidth : Rat)) ∧
    (w.bufferHeight.natAbs ≤ 2 ^ 24 →
      (Window.getBufferHeight w).1 = (w.bufferHeight : Rat)) := by
  refine ⟨rfl, rfl, ?_, ?_⟩
  · intro h
    simp [Window.getBufferWidth, float32OfInt_eq_of_le w.bufferWidth h]
  · intro h
    simp [Window.getBufferHeight, float32OfInt_eq_of_le w.bufferHeight h]

set_option maxRecDepth 10000 in
theorem getBuffer_int_to_float_check :
    ((Window.construct 800 600).bufferWidth.natAbs ≤ 2 ^ 24) ∧
    (Window.getBufferWidth (Window.construct 800 600)).1
      = ((Window.construct 800 600).bufferWidth : Rat) :=
  ⟨by norm_num [Window.construct],
    (getBuffer_int_to_float (Window.construct 800 600)).2.2.1
      (by norm_num [Window.construct])⟩

set_option maxRecDepth 10000 in
/-- Claim C10: getShouldClose, SwapBuffers, getBufferWidth,
getBufferHeight and getKeys leave every field of the Window unchanged,
while the mouse-delta accessors, the callbacks, Initialise and the
destructor are the operations that can mutate Window state. -/
theorem readonly_ops_frame :
    (∀ w : Window, (Window.getShouldClose w).2 = w) ∧
    (∀ w : Window, Window.SwapBuffers w = w) ∧
    (∀ w : Window, (Window.getBufferWidth w).2 = w) ∧
    (∀ w : Window, (Window.getBufferHeight w).2 = w) ∧
    (∀ w : Window, (Window.getKeys w).2 = w ∧
      (Window.getKeys w).1 = w.keys) ∧
    (∃ v : Window, (Window.getXChange v).2 ≠ v) ∧
    (∃ v : Window, (Window.getYChange v).2 ≠ v) ∧
    (∃ (v : Window) (k c a m : Int), Window.handleKeys v k c a m ≠ v) ∧
    (∃ (v : Window) (x y : Rat), Window.handleMouse v x y ≠ v) ∧
    (∃ (env : GLFWEnv) (v : Window), (Window.Initialise env v).2 ≠ v) ∧
    (∃ v : Window, Window.destroy v ≠ v) := by
  refine ⟨fun w => rfl, fun w => rfl, fun w => rfl, fun w => rfl,
    fun w => ⟨rfl, rfl⟩, ?_, ?_, ?_, ?_, ?_, ?_⟩
  · exact ⟨{ Window.construct 0 0 with xChange := 1 }, fun h => by
      have h2 := congrArg Window.xChange h
      simp [Window.getXChange] at h2⟩
  · exact ⟨{ Window.construct 0 0 with yChange := 1 }, fun h => by
      have h2 := congrArg Window.yChange h
      simp [Window.getYChange] at h2⟩
  · exact ⟨Window.construct 0 0, 0, 0, GLFW_PRESS, 0, by decide⟩
  · exact ⟨Window.construct 0 0, 1, 2, fun h => by
      have h2 := congrArg Window.mouseFirstMoved h
      simp [Window.handleMouse, Window.construct] at h2⟩
  · exact ⟨GLFWEnv.mk true 1 1, Window.construct 0 0, fun h => by
      have h2 := congrArg Window.mainWindow h
      simp [Window.Initialise, Window.construct] at h2⟩
  · exact ⟨{ Window.construct 0 0 with
        mainWindow := some (NativeWindow.mk false 0 0) }, fun h => by
      have h2 := congrArg Window.mainWindow h
      simp [Window.destroy] at h2⟩
